import Mathlib

/-!
Verification development for the StreamFX NVIDIA Video FX super-resolution
wrapper, `source/nvidia/vfx/nvidia-vfx-superresolution.cpp`.

Modelling conventions:
* `uint32_t` dimensions are modelled by `ℕ` (all arithmetic on them in the
  source stays far below `2^32`, so no wraparound modelling is needed);
* machine floating point (`float` / `double`) is modelled by exact rationals
  `ℚ`; `std::lround` is modelled as round-half-up on nonnegative rationals,
  which agrees with C `lround` (round half away from zero) on the nonnegative
  values that occur here;
* `streamfx::util::math::is_close` lives in a utility header that is not part
  of this excerpt; it is modelled from the spec as "the two values differ by
  no more than the tolerance";
* `superresolution::size(size, input_size, output_size)` is only ever invoked
  as `this->size(_cache_input_size, _cache_input_size, _cache_output_size)`
  (from `resize`, and recursively from itself with the same references), so
  the three reference parameters `size`, `input_size` and `_cache_input_size`
  all alias one single cell, and `output_size` aliases `_cache_output_size`.
  `sizeAliased` embeds the body of `size` under exactly this aliasing, which
  is the only calling pattern that exists in the file.  In particular the
  guard `input_size == _cache_input_size` of the cache path compares a cell
  with itself and is written here literally as the (trivially true)
  comparison `st.cache_input = st.cache_input`.
* Calls into the vendor engine (`NvCVImage_Transfer`, `run`, `effect::load`,
  `set(PARAMETER_...)`) are opaque; each call site takes the status the
  engine reports as an explicit `CvResult` argument.  A C++ `throw` is
  modelled by returning `some err` next to the state that the object retains
  after the exception escapes.
-/

namespace SuperRes

/-- Result status reported by an engine call: `SUCCESS` or any error code. -/
inductive CvResult where
  | success : CvResult
  | error : ℕ → CvResult
deriving DecidableEq

/-- Failure of the resolution negotiation itself. -/
inductive NegErr where
  /-- The retry path read `supported_scale_factors[scale_idx + 1]` past the
  end of the list (undefined behaviour in the C++ source). -/
  | outOfBounds : NegErr
  /-- Recursion fuel exhausted (does not occur for the fuel used here). -/
  | fuelExhausted : NegErr
deriving DecidableEq

/-- An error escaping one of the member functions (a C++ exception, or the
undefined behaviour of the negotiation retry path). -/
inductive Err where
  | negotiation : NegErr → Err
  | engine : String → Err
deriving DecidableEq

/-- The fixed list `supported_scale_factors{4. / 3., 1.5, 2., 3., 4.}`. -/
def supported_scale_factors : List ℚ := [4/3, 3/2, 2, 3, 4]

/-- `FLT_MAX`, the initial "minimal distance" of the linear scans
(`std::numeric_limits<float>::max() = 2^104 * (2^24 - 1)`). -/
def flt_max : ℚ := 2^104 * (2^24 - 1)

/-- C `abs` on floats: negate when negative. -/
def absQ (q : ℚ) : ℚ := if q < 0 then -q else q

/-- One step of the scan in `find_closest_scale_factor`: keep the pair
`(value, distance)` with the strictly smaller distance (strict comparison, so
the earlier entry wins ties). -/
def scan_val (factor : ℚ) (minimal : ℚ × ℚ) (delta : ℚ) : ℚ × ℚ :=
  if minimal.2 > absQ (delta - factor) then (delta, absQ (delta - factor)) else minimal

/-- `find_closest_scale_factor`: linear scan over the supported list keeping
the first entry of minimal absolute distance to `factor`. -/
def find_closest_scale_factor (factor : ℚ) : ℚ :=
  (supported_scale_factors.foldl (scan_val factor) (0, flt_max)).1

/-- One step of the scan in `find_closest_scale_factor_index`, over
`(index, entry)` pairs. -/
def scan_idx (factor : ℚ) (minimal : ℕ × ℚ) (p : ℕ × ℚ) : ℕ × ℚ :=
  if minimal.2 > absQ (p.2 - factor) then (p.1, absQ (p.2 - factor)) else minimal

/-- `find_closest_scale_factor_index`: index variant of the linear scan. -/
def find_closest_scale_factor_index (factor : ℚ) : ℕ :=
  (supported_scale_factors.enum.foldl (scan_idx factor) (0, flt_max)).1

/-- Modelled from the spec: `streamfx::util::math::is_close` (defined in a
utility header that is not part of this excerpt) — true when the two values
differ by no more than the tolerance. -/
def is_close (a b tolerance : ℚ) : Bool := absQ (a - b) ≤ tolerance

/-- `std::clamp<uint32_t>(v, lo, hi)`. -/
def clampN (v lo hi : ℕ) : ℕ := if v < lo then lo else if hi < v then hi else v

/-- `std::clamp<float>(v, lo, hi)`. -/
def clampQ (v lo hi : ℚ) : ℚ := if v < lo then lo else if hi < v then hi else v

/-- `std::lround` on the nonnegative rationals occurring here
(round half up). -/
def lround (q : ℚ) : ℕ := (⌊q + 1/2⌋).toNat

/-- The scale-dependent upper bounds `(max_width, max_height)` chosen by
`superresolution::size` (the lower bounds are the fixed `160×90`). -/
def bounds (scale : ℚ) : ℕ × ℕ :=
  if scale > 3 then (960, 540) else if scale > 2 then (1280, 720) else (1920, 1080)

/-- The "Calculate Input Size" block of `superresolution::size`: clamp the
dominant axis into its bounds, derive the other axis from the original aspect
ratio and clamp it too. -/
def clamp_input (scale : ℚ) (size : ℕ × ℕ) : ℕ × ℕ :=
  let mx := bounds scale
  if size.1 > size.2 then
    -- Dominant Width
    let ar : ℚ := (size.2 : ℚ) / (size.1 : ℚ)
    let w := clampN size.1 160 mx.1
    let h := clampN (lround ((w : ℚ) * ar)) 90 mx.2
    (w, h)
  else
    -- Dominant Height
    let ar : ℚ := (size.1 : ℚ) / (size.2 : ℚ)
    let h := clampN size.2 90 mx.2
    let w := clampN (lround ((h : ℚ) * ar)) 160 mx.1
    (w, h)

/-- The "Calculate Output Size" block: `lround(input * scale)` per axis. -/
def compute_output (scale : ℚ) (input : ℕ × ℕ) : ℕ × ℕ :=
  (lround ((input.1 : ℚ) * scale), lround ((input.2 : ℚ) * scale))

/-- The members of `superresolution` that `size` reads and writes: `_scale`
and the `_cache_*` trio.  Under the aliasing of the only existing call site
(see the file comment) the cells `size` / `input_size` coincide with
`_cache_input_size` and `output_size` coincides with `_cache_output_size`. -/
structure NegState where
  scale : ℚ
  cache_input : ℕ × ℕ
  cache_output : ℕ × ℕ
  cache_scale : ℚ
deriving DecidableEq

/-- The body of `superresolution::size` as invoked by `resize` (and by its
own retry recursion), i.e. with `size` / `input_size` aliasing
`_cache_input_size` and `output_size` aliasing `_cache_output_size`.
`recur` stands for the recursive retry call. -/
def sizeBody (recur : NegState → Except NegErr NegState) (st : NegState) :
    Except NegErr NegState :=
  -- "Check if the size has actually changed at all."  Under the aliasing,
  -- `input_size == _cache_input_size` compares a cell with itself.
  if st.cache_input = st.cache_input ∧ st.scale = st.cache_scale then
    .ok st
  else
    let input := clamp_input st.scale st.cache_input
    let output := compute_output st.scale input
    -- "Verify that this is a valid scale factor."
    let width_mul : ℚ := (output.1 : ℚ) / (input.1 : ℚ)
    let height_mul : ℚ := (output.2 : ℚ) / (input.2 : ℚ)
    if !(is_close width_mul st.scale (1/100000))
        || !(is_close height_mul st.scale (1/100000)) then
      let scale_idx := find_closest_scale_factor_index st.scale
      if scale_idx < supported_scale_factors.length then
        if h : scale_idx + 1 < supported_scale_factors.length then
          -- `_scale = supported_scale_factors[scale_idx + 1];` then recurse;
          -- afterwards the outer call re-runs the cache update (a no-op on
          -- the aliased cells, plus `_cache_scale = _scale`).
          match recur { st with
              scale := supported_scale_factors[scale_idx + 1],
              cache_input := input, cache_output := output } with
          | .error e => .error e
          | .ok st' => .ok { st' with cache_scale := st'.scale }
        else
          -- `supported_scale_factors[scale_idx + 1]` reads past the end.
          .error .outOfBounds
      else
        -- Guard false (dead in the source): fall through to the cache
        -- update with the mismatched sizing.
        .ok { st with cache_input := input, cache_output := output,
                      cache_scale := st.scale }
    else
      -- "Update last stored values."
      .ok { st with cache_input := input, cache_output := output,
                    cache_scale := st.scale }

/-- `superresolution::size` under the call-site aliasing, with `fuel` only
bounding the retry recursion depth (any fuel above the length of the
supported-scale list is enough; `resize` uses `8`). -/
def sizeAliased : ℕ → NegState → Except NegErr NegState
  | 0, _ => .error .fuelExhausted
  | fuel + 1, st => sizeBody (sizeAliased fuel) st

/-- The seven GPU buffers owned by the pipeline, each recorded by its
dimensions (`none` = not yet allocated; pixel contents and formats are not
modelled). -/
structure Buffers where
  tmp : Option (ℕ × ℕ)
  input : Option (ℕ × ℕ)
  convert_to_fp32 : Option (ℕ × ℕ)
  source : Option (ℕ × ℕ)
  destination : Option (ℕ × ℕ)
  convert_to_u8 : Option (ℕ × ℕ)
  output : Option (ℕ × ℕ)
deriving DecidableEq

/-- The mutable state of a `superresolution` object. -/
structure SRState where
  dirty : Bool
  strength : ℚ
  neg : NegState
  bufs : Buffers
deriving DecidableEq

/-- `superresolution::set_strength`: binarize with threshold `>= 0.5`, swap
with the stored value, flag dirty when the new and old values are not close
(tolerance `0.01`), then push the value to the engine.  A non-success status
of that `set` call is only logged (`D_LOG_ERROR`) — nothing is thrown, which
is why the returned error slot is always `none`. -/
def set_strengthM (st : SRState) (strength : ℚ) (res : CvResult) :
    SRState × Option Err :=
  let s : ℚ := if strength ≥ 1/2 then 1 else 0
  let dirty := if !(is_close s st.strength (1/100)) then true else st.dirty
  -- `res` is the status of `set(PARAMETER_STRENGTH, value)`; on failure the
  -- source logs and falls through.
  match res with
  | _ => ({ st with strength := s, dirty := dirty }, none)

/-- `superresolution::strength`. -/
def strengthM (st : SRState) : ℚ := st.strength

/-- `superresolution::set_scale`: clamp to `[1, 4]`, snap to the nearest
supported factor, flag dirty when the old and new factors are not close
(tolerance `0.01`), store the factor.  No buffer is touched. -/
def set_scaleM (st : SRState) (scale : ℚ) : SRState :=
  let scale' := clampQ scale 1 4
  let factor := find_closest_scale_factor scale'
  let dirty := if !(is_close st.neg.scale factor (1/100)) then true else st.dirty
  { st with dirty := dirty, neg := { st.neg with scale := factor } }

/-- `superresolution::scale`. -/
def scaleM (st : SRState) : ℚ := st.neg.scale

/-- `superresolution::resize`: set `_cache_input_size = {width, height}`, run
the (aliased) negotiation, then walk the seven buffers in source order:
`_tmp` is allocated only when absent (sized to the just-negotiated output and
never resized), the input-sized and output-sized buffers are resized or
allocated whenever their dimensions differ from their size class, and a fresh
binding of `_source` / `_destination` into the engine flags the effect dirty
— unless the corresponding `set(PARAMETER_..._IMAGE_0, ...)` call (status
`resIn` / `resOut`) fails, which throws before the dirty flag is set. -/
def resizeM (st : SRState) (width height : ℕ) (resIn resOut : CvResult) :
    SRState × Option Err :=
  match sizeAliased 8 { st.neg with cache_input := (width, height) } with
  | .error e =>
      ({ st with neg := { st.neg with cache_input := (width, height) } },
       some (Err.negotiation e))
  | .ok neg =>
      let bufs0 := st.bufs
      let bufs1 := { bufs0 with tmp := some (bufs0.tmp.getD neg.cache_output) }
      let bufs2 := { bufs1 with
                     input := some neg.cache_input,
                     convert_to_fp32 := some neg.cache_input }
      let srcChanged := bufs2.source ≠ some neg.cache_input
      let bufs3 := { bufs2 with source := some neg.cache_input }
      if srcChanged ∧ resIn ≠ CvResult.success then
        ({ st with neg := neg, bufs := bufs3 }, some (Err.engine "SetImage failed."))
      else
        let dirty1 := st.dirty || srcChanged
        let dstChanged := bufs3.destination ≠ some neg.cache_output
        let bufs4 := { bufs3 with destination := some neg.cache_output }
        if dstChanged ∧ resOut ≠ CvResult.success then
          ({ st with neg := neg, bufs := bufs4, dirty := dirty1 },
           some (Err.engine "SetImage failed."))
        else
          let dirty2 := dirty1 || dstChanged
          let bufs5 := { bufs4 with
                         convert_to_u8 := some neg.cache_output,
                         output := some neg.cache_output }
          ({ st with neg := neg, bufs := bufs5, dirty := dirty2 }, none)

/-- `superresolution::load`: run `effect::load()`; on a non-success status
throw (before anything else happens, so `_dirty` keeps its value), otherwise
clear `_dirty`. -/
def loadM (st : SRState) (res : CvResult) : SRState × Option Err :=
  if res = CvResult.success then ({ st with dirty := false }, none)
  else (st, some (Err.engine "Load failed."))

/-- Sequencing of member-function calls: a thrown error skips the rest. -/
def andThen (x : SRState × Option Err) (f : SRState → SRState × Option Err) :
    SRState × Option Err :=
  match x with
  | (st, some e) => (st, some e)
  | (st, none) => f st

/-- A checked engine call inside `process`: state is untouched, a non-success
status throws. -/
def check (st : SRState) (res : CvResult) (msg : String) : SRState × Option Err :=
  (st, if res = CvResult.success then none else some (Err.engine msg))

/-- The statuses the engine reports for the calls one `process` invocation
makes: the two `set(PARAMETER_..._IMAGE_0, ...)` calls possibly made inside
`resize`, the `effect::load()` possibly made via `load`, the four
`NvCVImage_Transfer` calls and the `run()` call. -/
structure ProcResults where
  setInput : CvResult
  setOutput : CvResult
  load : CvResult
  t1 : CvResult
  t2 : CvResult
  run : CvResult
  t3 : CvResult
  t4 : CvResult
deriving DecidableEq

/-- `superresolution::process`: resize to the incoming frame, reload when
dirty, then the fixed copy/convert/run/convert/copy sequence, each checked
call aborting the frame on a non-success status. -/
def processM (st : SRState) (width height : ℕ) (r : ProcResults) :
    SRState × Option Err :=
  andThen (resizeM st width height r.setInput r.setOutput) fun st1 =>
  andThen (if st1.dirty then loadM st1 r.load else (st1, none)) fun st2 =>
  andThen (check st2 r.t1 "Transfer failed.") fun st3 =>
  andThen (check st3 r.t2 "Transfer failed.") fun st4 =>
  andThen (check st4 r.run "Run failed.") fun st5 =>
  andThen (check st5 r.t3 "Transfer failed.") fun st6 =>
  check st6 r.t4 "Transfer failed."

/-- The constructor's initializer list: `_dirty(true)`, `_strength(1.)`,
`_scale(1.5)`, value-initialized caches and no buffers. -/
def initState : SRState :=
  { dirty := true, strength := 1,
    neg := { scale := 3/2, cache_input := (0, 0), cache_output := (0, 0),
             cache_scale := 0 },
    bufs := { tmp := none, input := none, convert_to_fp32 := none,
              source := none, destination := none, convert_to_u8 := none,
              output := none } }

/-- The constructor body: `set_strength(_strength); set_scale(_scale);
resize(160, 90); load();` (with every engine call succeeding). -/
def constructM : SRState × Option Err :=
  andThen (set_strengthM initState initState.strength CvResult.success) fun st1 =>
  andThen ((set_scaleM st1 st1.neg.scale, none)) fun st2 =>
  andThen (resizeM st2 160 90 CvResult.success CvResult.success) fun st3 =>
  loadM st3 CvResult.success

/-- The state of a freshly constructed `superresolution` object. -/
def ctorState : SRState :=
  { dirty := false, strength := 1,
    neg := { scale := 3/2, cache_input := (160, 90), cache_output := (240, 135),
             cache_scale := 3/2 },
    bufs := { tmp := some (240, 135), input := some (160, 90),
              convert_to_fp32 := some (160, 90), source := some (160, 90),
              destination := some (240, 135), convert_to_u8 := some (240, 135),
              output := some (240, 135) } }

/-! ### Evaluation lemmas for concrete runs -/

set_option maxRecDepth 8000

lemma sizeAliased_succ (fuel : ℕ) (st : NegState) :
    sizeAliased (fuel + 1) st = sizeBody (sizeAliased fuel) st := rfl

/-- Under the call-site aliasing, the cache path is taken whenever the scale
matches the cached scale — regardless of the requested size, because the size
comparison is a cell compared with itself. -/
lemma sizeBody_cache_hit (recur : NegState → Except NegErr NegState)
    (st : NegState) (h : st.scale = st.cache_scale) :
    sizeBody recur st = .ok st := by
  simp [sizeBody, h]

lemma clamp_input_ctor : clamp_input (3/2) (160, 90) = (160, 90) := by
  norm_num [clamp_input, bounds, clampN, lround]; decide

lemma compute_output_ctor : compute_output (3/2) (160, 90) = (240, 135) := by
  norm_num [compute_output, lround]; omega

lemma fci_32 : find_closest_scale_factor_index (3/2) = 1 := by
  norm_num [find_closest_scale_factor_index, supported_scale_factors, scan_idx,
    absQ, flt_max, List.enum, List.enumFrom, List.foldl]

lemma fci_4 : find_closest_scale_factor_index 4 = 4 := by
  norm_num [find_closest_scale_factor_index, supported_scale_factors, scan_idx,
    absQ, flt_max, List.enum, List.enumFrom, List.foldl]

lemma fc_32 : find_closest_scale_factor (3/2) = 3/2 := by
  norm_num [find_closest_scale_factor, supported_scale_factors, scan_val, absQ,
    flt_max, List.foldl]

lemma fc_2 : find_closest_scale_factor 2 = 2 := by
  norm_num [find_closest_scale_factor, supported_scale_factors, scan_val, absQ,
    flt_max, List.foldl]

lemma fc_52 : find_closest_scale_factor (5/2) = 2 := by
  norm_num [find_closest_scale_factor, supported_scale_factors, scan_val, absQ,
    flt_max, List.foldl]

/-- The negotiation performed by the constructor's `resize(160, 90)`. -/
lemma sizeBody_ctor (recur : NegState → Except NegErr NegState) :
    sizeBody recur ⟨3/2, (160, 90), (0, 0), 0⟩ =
      .ok ⟨3/2, (160, 90), (240, 135), 3/2⟩ := by
  unfold sizeBody
  rw [if_neg (by norm_num)]
  simp only [clamp_input_ctor, compute_output_ctor, fci_32, supported_scale_factors]
  norm_num [is_close, absQ]

lemma sizeAliased_ctor :
    sizeAliased 8 ⟨3/2, (160, 90), (0, 0), 0⟩ =
      .ok ⟨3/2, (160, 90), (240, 135), 3/2⟩ := by
  rw [show (8 : ℕ) = 7 + 1 from rfl, sizeAliased_succ, sizeBody_ctor]

lemma fci_2 : find_closest_scale_factor_index 2 = 2 := by
  norm_num [find_closest_scale_factor_index, supported_scale_factors, scan_idx,
    absQ, flt_max, List.enum, List.enumFrom, List.foldl]

lemma clamp_input_2_161 : clamp_input 2 (161, 90) = (161, 90) := by
  norm_num [clamp_input, bounds, clampN, lround]; decide

lemma compute_output_2_161 : compute_output 2 (161, 90) = (322, 180) := by
  norm_num [compute_output, lround]; omega

lemma clamp_input_32_161 : clamp_input (3/2) (161, 90) = (161, 90) := by
  norm_num [clamp_input, bounds, clampN, lround]; decide

lemma compute_output_32_161 : compute_output (3/2) (161, 90) = (242, 135) := by
  norm_num [compute_output, lround]; omega

lemma sizeBody_2_161 (recur : NegState → Except NegErr NegState) :
    sizeBody recur ⟨2, (161, 90), (240, 135), 3/2⟩ =
      .ok ⟨2, (161, 90), (322, 180), 2⟩ := by
  unfold sizeBody
  rw [if_neg (by norm_num)]
  simp only [clamp_input_2_161, compute_output_2_161, fci_2, supported_scale_factors]
  norm_num [is_close, absQ]

lemma sizeAliased_2_161 :
    sizeAliased 8 ⟨2, (161, 90), (240, 135), 3/2⟩ =
      .ok ⟨2, (161, 90), (322, 180), 2⟩ := by
  rw [show (8 : ℕ) = 7 + 1 from rfl, sizeAliased_succ, sizeBody_2_161]

lemma sizeAliased_7_hit :
    sizeAliased 7 ⟨2, (161, 90), (242, 135), 2⟩ =
      .ok ⟨2, (161, 90), (242, 135), 2⟩ := by
  rw [show (7 : ℕ) = 6 + 1 from rfl, sizeAliased_succ]
  exact sizeBody_cache_hit _ _ rfl

lemma sizeAliased_retry_161 :
    sizeAliased 8 ⟨3/2, (161, 90), (322, 180), 2⟩ =
      .ok ⟨2, (161, 90), (242, 135), 2⟩ := by
  rw [show (8 : ℕ) = 7 + 1 from rfl, sizeAliased_succ]
  unfold sizeBody
  rw [if_neg (by norm_num)]
  simp only [clamp_input_32_161, compute_output_32_161, fci_32,
    supported_scale_factors]
  norm_num [is_close, absQ]
  rw [sizeAliased_7_hit]

lemma sizeAliased_hit_10000 :
    sizeAliased 8 ⟨3/2, (10000, 1), (240, 135), 3/2⟩ =
      .ok ⟨3/2, (10000, 1), (240, 135), 3/2⟩ := by
  rw [show (8 : ℕ) = 7 + 1 from rfl, sizeAliased_succ]
  exact sizeBody_cache_hit _ _ rfl

/-- `resize(10000, 1)` on a freshly constructed object. -/
lemma resizeM_10000 :
    resizeM ctorState 10000 1 CvResult.success CvResult.success =
    ({ dirty := true, strength := 1,
       neg := ⟨3/2, (10000, 1), (240, 135), 3/2⟩,
       bufs := ⟨some (240, 135), some (10000, 1), some (10000, 1), some (10000, 1),
                some (240, 135), some (240, 135), some (240, 135)⟩ }, none) := by
  unfold resizeM ctorState
  simp only [sizeAliased_hit_10000]
  norm_num [Option.getD]

/-- First step of the stale-ratio scenario: `set_scale(2.0)` then
`resize(161, 90)` on a freshly constructed object. -/
lemma resizeM_scale2_161 :
    resizeM { dirty := true, strength := 1,
              neg := ⟨2, (160, 90), (240, 135), 3/2⟩,
              bufs := ctorState.bufs } 161 90 CvResult.success CvResult.success =
    ({ dirty := true, strength := 1,
       neg := ⟨2, (161, 90), (322, 180), 2⟩,
       bufs := ⟨some (240, 135), some (161, 90), some (161, 90), some (161, 90),
                some (322, 180), some (322, 180), some (322, 180)⟩ }, none) := by
  unfold resizeM ctorState
  simp only [sizeAliased_2_161]
  norm_num [Option.getD]

lemma resizeM_retry_161 :
    resizeM { dirty := true, strength := 1,
              neg := ⟨3/2, (161, 90), (322, 180), 2⟩,
              bufs := ⟨some (240, 135), some (161, 90), some (161, 90), some (161, 90),
                       some (322, 180), some (322, 180), some (322, 180)⟩ }
      161 90 CvResult.success CvResult.success =
    ({ dirty := true, strength := 1,
       neg := ⟨2, (161, 90), (242, 135), 2⟩,
       bufs := ⟨some (240, 135), some (161, 90), some (161, 90), some (161, 90),
                some (242, 135), some (242, 135), some (242, 135)⟩ }, none) := by
  unfold resizeM
  simp only [sizeAliased_retry_161]
  norm_num [Option.getD]

lemma resizeM_init :
    resizeM { dirty := true, strength := 1,
              neg := ⟨3/2, (0, 0), (0, 0), 0⟩,
              bufs := ⟨none, none, none, none, none, none, none⟩ } 160 90
      CvResult.success CvResult.success =
    ({ dirty := true, strength := 1,
       neg := ⟨3/2, (160, 90), (240, 135), 3/2⟩,
       bufs := ⟨some (240, 135), some (160, 90), some (160, 90), some (160, 90),
                some (240, 135), some (240, 135), some (240, 135)⟩ }, none) := by
  unfold resizeM
  simp only [sizeAliased_ctor]
  norm_num [Option.getD]

/-- Running the constructor yields `ctorState` with no error. -/
lemma construct_eval : constructM = (ctorState, none) := by
  unfold constructM
  simp only [andThen, initState, set_strengthM, set_scaleM]
  norm_num [is_close, absQ, clampQ, fc_32, -Prod.mk_zero_zero]
  simp only [resizeM_init]
  norm_num [loadM, ctorState]

lemma sizeAliased_hit_1920 :
    sizeAliased 8 ⟨3/2, (1920, 1080), (240, 135), 3/2⟩ =
      .ok ⟨3/2, (1920, 1080), (240, 135), 3/2⟩ := by
  rw [show (8 : ℕ) = 7 + 1 from rfl, sizeAliased_succ]
  exact sizeBody_cache_hit _ _ rfl

lemma clamp_input_1920 : clamp_input (3/2) (1920, 1080) = (1920, 1080) := by
  norm_num [clamp_input, bounds, clampN, lround]; decide

lemma compute_output_1920 : compute_output (3/2) (1920, 1080) = (2880, 1620) := by
  norm_num [compute_output, lround]; omega

lemma sizeAliased_hit_160 :
    sizeAliased 8 ⟨3/2, (160, 90), (240, 135), 3/2⟩ =
      .ok ⟨3/2, (160, 90), (240, 135), 3/2⟩ := by
  rw [show (8 : ℕ) = 7 + 1 from rfl, sizeAliased_succ]
  exact sizeBody_cache_hit _ _ rfl

/-- `resize(160, 90)` on a constructed object with the dirty flag set leaves
the state unchanged (cache hit, all buffers already sized). -/
lemma resizeM_dirty_160 :
    resizeM { ctorState with dirty := true } 160 90
      CvResult.success CvResult.success =
    ({ ctorState with dirty := true }, none) := by
  unfold resizeM ctorState
  simp only [sizeAliased_hit_160]
  norm_num [Option.getD]

lemma lround_natCast (n : ℕ) : lround ((n : ℚ)) = n := by
  unfold lround
  have h : ⌊((n : ℚ) + 1/2)⌋ = (n : ℤ) := by
    rw [Int.floor_eq_iff]
    constructor
    · push_cast; linarith
    · push_cast; linarith
  rw [h]
  simp

lemma clamp_input_square (scale : ℚ) (w : ℕ) (hw : 0 < w) :
    clamp_input scale (w, w) =
      (clampN (clampN w 90 (bounds scale).2) 160 (bounds scale).1,
       clampN w 90 (bounds scale).2) := by
  have hne : ((w : ℚ)) ≠ 0 := Nat.cast_ne_zero.2 hw.ne'
  simp [clamp_input, div_self hne, lround_natCast]

lemma clamp_input_100 : clamp_input (3/2) (100, 100) = (160, 100) := by
  norm_num [clamp_input, bounds, clampN, lround]

-- index scan stays below the list length
lemma scan_idx_foldl_lt (factor : ℚ) (n : ℕ) :
    ∀ (l : List (ℕ × ℚ)) (acc : ℕ × ℚ), acc.1 < n → (∀ p ∈ l, p.1 < n) →
      (l.foldl (scan_idx factor) acc).1 < n := by
  intro l
  induction l with
  | nil => intro acc hacc _; simpa using hacc
  | cons p t ih =>
      intro acc hacc hl
      simp only [List.foldl_cons]
      apply ih
      · unfold scan_idx
        split
        · exact hl p (by simp)
        · exact hacc
      · intro q hq
        exact hl q (by simp [hq])

lemma fci_lt (factor : ℚ) :
    find_closest_scale_factor_index factor < supported_scale_factors.length := by
  unfold find_closest_scale_factor_index
  have he : supported_scale_factors.enum =
      [(0, 4/3), (1, 3/2), (2, 2), (3, 3), (4, 4)] := rfl
  rw [he, show supported_scale_factors.length = 5 from rfl]
  apply scan_idx_foldl_lt
  · norm_num
  · intro p hp
    fin_cases hp <;> norm_num
/-- A `process` call that throws nothing had a clean resize and five
successful engine calls. -/
lemma processM_ok (st : SRState) (w h : ℕ) (r : ProcResults)
    (hok : (processM st w h r).2 = none) :
    (resizeM st w h r.setInput r.setOutput).2 = none
    ∧ r.t1 = CvResult.success ∧ r.t2 = CvResult.success
    ∧ r.run = CvResult.success ∧ r.t3 = CvResult.success
    ∧ r.t4 = CvResult.success := by
  unfold processM andThen check at hok
  rcases hres : resizeM st w h r.setInput r.setOutput with ⟨st1, e1⟩
  rw [hres] at hok
  cases e1 with
  | some e => simp at hok
  | none =>
      by_cases hd : st1.dirty <;>
        simp only [hd, if_true, if_false, loadM] at hok <;>
        rcases hl : r.load with _ | c <;>
        rcases h1 : r.t1 with _ | c1 <;> rcases h2 : r.t2 with _ | c2 <;>
        rcases h3 : r.run with _ | c3 <;> rcases h4 : r.t3 with _ | c4 <;>
        rcases h5 : r.t4 with _ | c5 <;>
        simp_all

lemma processM_resize_err (st : SRState) (w h : ℕ) (r : ProcResults) (e : Err)
    (hres : (resizeM st w h r.setInput r.setOutput).2 = some e) :
    (processM st w h r).2 = some e := by
  unfold processM andThen
  rcases hr : resizeM st w h r.setInput r.setOutput with ⟨st1, e1⟩
  rw [hr] at hres
  cases e1 with
  | some e' => simp_all
  | none => simp at hres

/-- A dirty pipeline whose reload fails aborts the `process` call. -/
lemma processM_load_fail (st : SRState) (w h : ℕ) (r : ProcResults) (st1 : SRState)
    (hres : resizeM st w h r.setInput r.setOutput = (st1, none))
    (hd : st1.dirty = true) (hl : r.load ≠ CvResult.success) :
    (processM st w h r).2 = some (Err.engine "Load failed.") := by
  unfold processM andThen
  rw [hres]
  simp [hd, loadM, hl]

/-- `process` never touches the scratch buffer outside of `resize`. -/
lemma processM_tmp (st : SRState) (w h : ℕ) (r : ProcResults) :
    (processM st w h r).1.bufs.tmp
      = (resizeM st w h r.setInput r.setOutput).1.bufs.tmp := by
  unfold processM andThen check
  rcases hr : resizeM st w h r.setInput r.setOutput with ⟨st1, e1⟩
  cases e1 with
  | some e' => simp
  | none =>
      by_cases hd : st1.dirty <;>
        simp only [hd, if_true, if_false, loadM] <;>
        rcases hl : r.load with _ | c <;>
        rcases h1 : r.t1 with _ | c1 <;> rcases h2 : r.t2 with _ | c2 <;>
        rcases h3 : r.run with _ | c3 <;> rcases h4 : r.t3 with _ | c4 <;>
        rcases h5 : r.t4 with _ | c5 <;>
        simp_all

/-- An existing scratch buffer survives any `resize` unchanged. -/
lemma resizeM_tmp_some (st : SRState) (w h : ℕ) (rIn rOut : CvResult)
    (d : ℕ × ℕ) (hd : st.bufs.tmp = some d) :
    (resizeM st w h rIn rOut).1.bufs.tmp = some d := by
  unfold resizeM
  rcases hsz : sizeAliased 8 { st.neg with cache_input := (w, h) } with e | neg
  · simp [hd]
  · simp only [hd]
    split_ifs <;> simp
/-- After an error-free `resize`, every buffer matches its size class: the
input-sized trio carries the negotiated input dimensions, the output-sized
trio the negotiated output dimensions, and the scratch buffer keeps its old
dimensions when it existed and is created at the negotiated output dimensions
otherwise. -/
lemma resizeM_ok_bufs (st : SRState) (w h : ℕ) (rIn rOut : CvResult)
    (st' : SRState) (hok : resizeM st w h rIn rOut = (st', none)) :
    st'.bufs.tmp = some (st.bufs.tmp.getD st'.neg.cache_output)
    ∧ st'.bufs.input = some st'.neg.cache_input
    ∧ st'.bufs.convert_to_fp32 = some st'.neg.cache_input
    ∧ st'.bufs.source = some st'.neg.cache_input
    ∧ st'.bufs.destination = some st'.neg.cache_output
    ∧ st'.bufs.convert_to_u8 = some st'.neg.cache_output
    ∧ st'.bufs.output = some st'.neg.cache_output := by
  unfold resizeM at hok
  rcases hsz : sizeAliased 8 { st.neg with cache_input := (w, h) } with e | neg <;>
    rw [hsz] at hok
  · simp at hok
  · simp only [] at hok
    split_ifs at hok with h1 h2
    · simp at hok
    · simp at hok
    · rw [Prod.mk.injEq] at hok
      obtain ⟨hst, -⟩ := hok
      subst hst
      simp
lemma absQ_nonneg (q : ℚ) : 0 ≤ absQ q := by
  unfold absQ; split <;> linarith

/-- The distance component of the scan never increases. -/
lemma scan_fold_le (c : ℚ) :
    ∀ (l : List ℚ) (acc : ℚ × ℚ), (l.foldl (scan_val c) acc).2 ≤ acc.2 := by
  intro l
  induction l with
  | nil => intro acc; simp
  | cons b t ih =>
      intro acc
      simp only [List.foldl_cons]
      refine le_trans (ih _) ?_
      unfold scan_val
      split
      · exact le_of_lt (by assumption)
      · exact le_refl _

/-- The linear scan started at a valid accumulator returns the first entry of
minimal distance: the scanned list decomposes around the result, with every
entry before it strictly farther from `c` and every entry after it at least
as far. -/
lemma scan_first_min (c : ℚ) :
    ∀ (l : List ℚ) (a : ℚ),
      ∃ pre post,
        a :: l = pre ++ (l.foldl (scan_val c) (a, absQ (a - c))).1 :: post
        ∧ (l.foldl (scan_val c) (a, absQ (a - c))).2
            = absQ ((l.foldl (scan_val c) (a, absQ (a - c))).1 - c)
        ∧ (∀ y ∈ pre, absQ ((l.foldl (scan_val c) (a, absQ (a - c))).1 - c)
              < absQ (y - c))
        ∧ (∀ y ∈ post, absQ ((l.foldl (scan_val c) (a, absQ (a - c))).1 - c)
              ≤ absQ (y - c)) := by
  intro l
  induction l with
  | nil =>
      intro a
      exact ⟨[], [], by simp, by simp, by simp, by simp⟩
  | cons b t ih =>
      intro a
      simp only [List.foldl_cons]
      by_cases hab : absQ (a - c) > absQ (b - c)
      · rw [show scan_val c (a, absQ (a - c)) b = (b, absQ (b - c)) from by
            unfold scan_val; rw [if_pos hab]]
        obtain ⟨pre, post, hdec, hval, hpre, hpost⟩ := ih b
        refine ⟨a :: pre, post, ?_, hval, ?_, hpost⟩
        · rw [List.cons_append, ← hdec]
        · intro y hy
          rcases List.mem_cons.1 hy with rfl | hy'
          · have hrb : absQ ((t.foldl (scan_val c) (b, absQ (b - c))).1 - c)
                ≤ absQ (b - c) := by
              have h := scan_fold_le c t (b, absQ (b - c))
              rw [hval] at h
              exact h
            exact lt_of_le_of_lt hrb hab
          · exact hpre y hy'
      · rw [show scan_val c (a, absQ (a - c)) b = (a, absQ (a - c)) from by
            unfold scan_val; rw [if_neg hab]]
        obtain ⟨pre, post, hdec, hval, hpre, hpost⟩ := ih a
        cases pre with
        | nil =>
            simp only [List.nil_append, List.cons.injEq] at hdec
            obtain ⟨ha, hposteq⟩ := hdec
            refine ⟨[], b :: t, by simp [← ha], hval, by simp, ?_⟩
            intro y hy
            rcases List.mem_cons.1 hy with rfl | hy'
            · rw [← ha]
              exact not_lt.1 hab
            · exact hpost y (hposteq ▸ hy')
        | cons p pre' =>
            simp only [List.cons_append, List.cons.injEq] at hdec
            obtain ⟨hap, ht⟩ := hdec
            refine ⟨a :: b :: pre', post, ?_, hval, ?_, hpost⟩
            · simpa using congrArg (fun z => a :: b :: z) ht
            · intro y hy
              have hpa : absQ ((t.foldl (scan_val c) (a, absQ (a - c))).1 - c)
                  < absQ (a - c) := by
                have := hpre p (by simp)
                rw [← hap] at this
                exact this
              rcases List.mem_cons.1 hy with rfl | hy'
              · exact hpa
              · rcases List.mem_cons.1 hy' with rfl | hy''
                · exact lt_of_lt_of_le hpa (not_lt.1 hab)
                · exact hpre y (by simp [hy''])
lemma clampQ_bounds (x : ℚ) : 1 ≤ clampQ x 1 4 ∧ clampQ x 1 4 ≤ 4 := by
  unfold clampQ
  split_ifs <;> constructor <;> linarith

/-- For a clamped factor, `find_closest_scale_factor` picks the first member
of minimal distance: the supported list splits around the result, every
earlier entry strictly farther away, every later entry at least as far. -/
lemma find_closest_decomp (c : ℚ) (h1 : 1 ≤ c) (h4 : c ≤ 4) :
    ∃ pre post,
      supported_scale_factors = pre ++ find_closest_scale_factor c :: post
      ∧ (∀ y ∈ pre, absQ (find_closest_scale_factor c - c) < absQ (y - c))
      ∧ (∀ y ∈ post, absQ (find_closest_scale_factor c - c) ≤ absQ (y - c)) := by
  have h3 : (3 : ℚ) < flt_max := by norm_num [flt_max]
  have habs : absQ (4/3 - c) ≤ 3 := by
    unfold absQ; split <;> linarith
  have hstep : scan_val c ((0 : ℚ), flt_max) (4/3) = (4/3, absQ (4/3 - c)) := by
    unfold scan_val
    rw [if_pos (by simpa using lt_of_le_of_lt habs h3)]
  unfold find_closest_scale_factor
  rw [show supported_scale_factors = (4/3) :: [3/2, 2, 3, 4] from rfl,
    List.foldl_cons, hstep]
  obtain ⟨pre, post, hdec, hval, hpre, hpost⟩ := scan_first_min c [3/2, 2, 3, 4] (4/3)
  exact ⟨pre, post, hdec, hpre, hpost⟩
lemma resizeM_1920 :
    resizeM ctorState 1920 1080 CvResult.success CvResult.success =
    ({ dirty := true, strength := 1,
       neg := ⟨3/2, (1920, 1080), (240, 135), 3/2⟩,
       bufs := ⟨some (240, 135), some (1920, 1080), some (1920, 1080),
                some (1920, 1080), some (240, 135), some (240, 135),
                some (240, 135)⟩ }, none) := by
  unfold resizeM ctorState
  simp only [sizeAliased_hit_1920]
  norm_num [Option.getD]

/-- C1: fails on the code.  After construction the cache holds the sizing
`160×90 → 240×135` at scale `1.5`.  A subsequent `resize(1920, 1080)` with the
same scale must, by the claim, renegotiate; instead the cache check of `size`
compares the (aliased) `input_size` out-parameter with `_cache_input_size` —
a cell with itself — so it takes the cache path whenever only the scale
matches, returning the stale output `240×135` for the new input `1920×1080`
(a fresh negotiation would give input `1920×1080`, output `2880×1620`). -/
theorem claim_C1_cache_stale :
    ctorState.neg = ⟨3/2, (160, 90), (240, 135), 3/2⟩
    ∧ sizeAliased 8 ⟨3/2, (1920, 1080), (240, 135), 3/2⟩
        = .ok ⟨3/2, (1920, 1080), (240, 135), 3/2⟩
    ∧ (resizeM ctorState 1920 1080 CvResult.success CvResult.success).1.neg
        = ⟨3/2, (1920, 1080), (240, 135), 3/2⟩
    ∧ compute_output (3/2) (clamp_input (3/2) (1920, 1080)) = (2880, 1620)
    ∧ ((240, 135) : ℕ × ℕ) ≠ (2880, 1620) := by
  refine ⟨rfl, sizeAliased_hit_1920, ?_, ?_, by decide⟩
  · rw [resizeM_1920]
  · rw [clamp_input_1920, compute_output_1920]

/-- C2: the retry path of `size` guards the access
`supported_scale_factors[scale_idx + 1]` only by
`scale_idx < supported_scale_factors.size()`, which always holds; when the
closest index is the last entry, the guard still permits the access and the
index `scale_idx + 1` is out of the list's bounds. -/
theorem claim_C2_oob_guard (factor : ℚ) :
    find_closest_scale_factor_index factor < supported_scale_factors.length
    ∧ (find_closest_scale_factor_index factor = supported_scale_factors.length - 1 →
        ¬ (find_closest_scale_factor_index factor + 1 < supported_scale_factors.length)
        ∧ supported_scale_factors[find_closest_scale_factor_index factor + 1]? = none) := by
  refine ⟨fci_lt factor, fun h => ?_⟩
  rw [h]
  exact ⟨by norm_num [supported_scale_factors], rfl⟩

/-- C2 witness: at factor `4` the closest index is the last entry, the guard
holds, and the accessed index is out of bounds. -/
theorem claim_C2_oob_guard_witness :
    find_closest_scale_factor_index 4 = supported_scale_factors.length - 1
    ∧ find_closest_scale_factor_index 4 < supported_scale_factors.length
    ∧ ¬ (find_closest_scale_factor_index 4 + 1 < supported_scale_factors.length) := by
  have h := claim_C2_oob_guard 4
  have hidx : find_closest_scale_factor_index 4 = supported_scale_factors.length - 1 := by
    rw [fci_4]; rfl
  exact ⟨hidx, h.1, (h.2 hidx).1⟩

/-- C4: fails on the code.  `resize(10000, 1)` on a freshly constructed
object (scale `1.5`, cached scale `1.5`) hits the broken cache path, so the
negotiated input is the raw `10000×1` and the input-sized buffers are sized
`10000×1` — outside the claimed bounds `[160,1920]×[90,1080]` for
scale `1.5`. -/
theorem claim_C4_bounds_violated :
    bounds (3/2) = (1920, 1080)
    ∧ resizeM ctorState 10000 1 CvResult.success CvResult.success =
      ({ dirty := true, strength := 1,
         neg := ⟨3/2, (10000, 1), (240, 135), 3/2⟩,
         bufs := ⟨some (240, 135), some (10000, 1), some (10000, 1), some (10000, 1),
                  some (240, 135), some (240, 135), some (240, 135)⟩ }, none)
    ∧ ¬ (10000 ≤ 1920) ∧ ¬ (90 ≤ 1) := by
  exact ⟨by norm_num [bounds], resizeM_10000, by norm_num, by norm_num⟩

/-- The object state reached by: construction, `set_scale(2)`,
`resize(161, 90)`, `set_scale(1.5)` (all engine calls succeeding). -/
def retryState : SRState :=
  { dirty := true, strength := 1,
    neg := ⟨3/2, (161, 90), (322, 180), 2⟩,
    bufs := ⟨some (240, 135), some (161, 90), some (161, 90), some (161, 90),
             some (322, 180), some (322, 180), some (322, 180)⟩ }

/-- C5: fails on the code.  From `retryState` (reachable as shown in the
first conjunct), `resize(161, 90)` renegotiates at scale `1.5`, computes
output `242×135`, fails the ratio check (`242/161` is not within `1e-5` of
`1.5`), bumps the scale to `2` and recurses — but the recursion hits the
broken cache path (`2` equals the cached scale) and returns with the
mismatched sizing: input `161×90`, output `242×135`, scale `2`, whose axis
ratios `242/161` and `135/90` are both far from the returned scale `2`. -/
theorem claim_C5_ratio_violated :
    set_scaleM (resizeM (set_scaleM ctorState 2) 161 90
        CvResult.success CvResult.success).1 (3/2) = retryState
    ∧ resizeM retryState 161 90 CvResult.success CvResult.success =
      ({ dirty := true, strength := 1,
         neg := ⟨2, (161, 90), (242, 135), 2⟩,
         bufs := ⟨some (240, 135), some (161, 90), some (161, 90), some (161, 90),
                  some (242, 135), some (242, 135), some (242, 135)⟩ }, none)
    ∧ is_close ((242 : ℚ) / 161) 2 (1/100000) = false
    ∧ is_close ((135 : ℚ) / 90) 2 (1/100000) = false := by
  refine ⟨?_, ?_, ?_, ?_⟩
  · have h1 : set_scaleM ctorState 2 =
        { dirty := true, strength := 1,
          neg := ⟨2, (160, 90), (240, 135), 3/2⟩,
          bufs := ctorState.bufs } := by
      norm_num [set_scaleM, ctorState, clampQ, fc_2, is_close, absQ]
    rw [h1, resizeM_scale2_161]
    norm_num [set_scaleM, retryState, clampQ, fc_32, is_close, absQ, ctorState]
  · rw [show retryState =
        { dirty := true, strength := 1,
          neg := ⟨3/2, (161, 90), (322, 180), 2⟩,
          bufs := ⟨some (240, 135), some (161, 90), some (161, 90), some (161, 90),
                   some (322, 180), some (322, 180), some (322, 180)⟩ } from rfl,
      resizeM_retry_161]
  · norm_num [is_close, absQ]
  · norm_num [is_close, absQ]

/-- C10: a square request is handled by the dominant-height branch (the
`width > height` test is false): the height is clamped directly into
`[90, max_height]` and the width is the clamped height times the aspect
ratio `1`, clamped into `[160, max_width]`; in particular `100×100` at scale
`1.5` negotiates to `160×100`, not `160×160`. -/
theorem claim_C10_square (scale : ℚ) (w : ℕ) (hw : 0 < w) :
    clamp_input scale (w, w)
      = (clampN (clampN w 90 (bounds scale).2) 160 (bounds scale).1,
         clampN w 90 (bounds scale).2)
    ∧ clamp_input (3/2) (100, 100) = (160, 100)
    ∧ clamp_input (3/2) (100, 100) ≠ (160, 160) := by
  refine ⟨clamp_input_square scale w hw, clamp_input_100, ?_⟩
  rw [clamp_input_100]
  decide

/-- C10 witness at the concrete square input `100×100`, scale `1.5`. -/
theorem claim_C10_square_witness :
    clamp_input (3/2) (100, 100)
      = (clampN (clampN 100 90 (bounds (3/2)).2) 160 (bounds (3/2)).1,
         clampN 100 90 (bounds (3/2)).2)
    ∧ clamp_input (3/2) (100, 100) = (160, 100) := by
  have h := claim_C10_square (3/2) 100 (by norm_num)
  exact ⟨h.1, h.2.1⟩
/-- C3 counterexample: the claim says a failing set-parameter call inside
`set_strength` aborts `set_strength` with an error; in the code the failure
is only logged — the call completes normally (no error in the returned slot)
and the strength is stored. -/
theorem claim_C3_counterexample :
    (set_strengthM ctorState (7/10) (CvResult.error 1)).2 = none
    ∧ (set_strengthM ctorState (7/10) (CvResult.error 1)).1.strength = 1 := by
  constructor
  · rfl
  · norm_num [set_strengthM, ctorState]

/-- C3 amended: transfer, run and load failures inside `process`, and
set-parameter failures on the freshly bound source or destination image
inside `resize`, abort the enclosing operation with an error; the
set-parameter call inside `set_strength`, however, never aborts — its
failure is only logged. -/
theorem claim_C3_amended (st : SRState) (x : ℚ) (res : CvResult) (w h : ℕ)
    (r : ProcResults) :
    (set_strengthM st x res).2 = none
    ∧ ((r.t1 ≠ CvResult.success ∨ r.t2 ≠ CvResult.success
        ∨ r.run ≠ CvResult.success ∨ r.t3 ≠ CvResult.success
        ∨ r.t4 ≠ CvResult.success) →
        (processM st w h r).2.isSome)
    ∧ (∀ e, (resizeM st w h r.setInput r.setOutput).2 = some e →
        (processM st w h r).2 = some e)
    ∧ (∀ st1, resizeM st w h r.setInput r.setOutput = (st1, none) →
        st1.dirty = true → r.load ≠ CvResult.success →
        (processM st w h r).2 = some (Err.engine "Load failed."))
    ∧ (∀ neg rIn rOut,
        sizeAliased 8 { st.neg with cache_input := (w, h) } = .ok neg →
        st.bufs.source ≠ some neg.cache_input → rIn ≠ CvResult.success →
        (resizeM st w h rIn rOut).2 = some (Err.engine "SetImage failed."))
    ∧ (∀ neg rIn rOut,
        sizeAliased 8 { st.neg with cache_input := (w, h) } = .ok neg →
        (st.bufs.source = some neg.cache_input ∨ rIn = CvResult.success) →
        st.bufs.destination ≠ some neg.cache_output → rOut ≠ CvResult.success →
        (resizeM st w h rIn rOut).2 = some (Err.engine "SetImage failed.")) := by
  refine ⟨?_, ?_, ?_, ?_, ?_, ?_⟩
  · cases res <;> rfl
  · intro hfail
    rcases hP : (processM st w h r).2 with _ | e
    · obtain ⟨-, h1, h2, h3, h4, h5⟩ := processM_ok st w h r hP
      rcases hfail with hf | hf | hf | hf | hf <;> exact absurd (by assumption) hf
    · rfl
  · intro e he
    rw [processM_resize_err st w h r e he]
  · intro st1 hres hd hl
    exact processM_load_fail st w h r st1 hres hd hl
  · intro neg rIn rOut hsz hsrc hrIn
    unfold resizeM
    rw [hsz]
    simp only []
    rw [if_pos ⟨hsrc, hrIn⟩]
  · intro neg rIn rOut hsz hnofirst hdst hrOut
    unfold resizeM
    rw [hsz]
    simp only []
    rw [if_neg (by
      rintro ⟨hsrc', hrIn'⟩
      rcases hnofirst with hs | hr
      · exact hsrc' hs
      · exact hrIn' hr)]
    rw [if_pos ⟨hdst, hrOut⟩]

/-- C3 amended witness: on a freshly constructed object, a failing `run`
aborts `process` and a failing set-parameter on a destination rebind aborts
`resize`, while a failing set-parameter inside `set_strength` does not
abort it. -/
theorem claim_C3_amended_witness :
    (set_strengthM ctorState (7/10) (CvResult.error 1)).2 = none
    ∧ (processM ctorState 160 90
        ⟨CvResult.success, CvResult.success, CvResult.success, CvResult.success,
         CvResult.success, CvResult.error 7, CvResult.success,
         CvResult.success⟩).2.isSome
    ∧ (resizeM { dirty := true, strength := 1,
                 neg := ⟨2, (160, 90), (240, 135), 3/2⟩,
                 bufs := ctorState.bufs } 161 90
        CvResult.success (CvResult.error 3)).2
      = some (Err.engine "SetImage failed.") := by
  have h := claim_C3_amended ctorState (7/10) (CvResult.error 1) 160 90
    ⟨CvResult.success, CvResult.success, CvResult.success, CvResult.success,
     CvResult.success, CvResult.error 7, CvResult.success, CvResult.success⟩
  have h2 := claim_C3_amended
    { dirty := true, strength := 1,
      neg := ⟨2, (160, 90), (240, 135), 3/2⟩,
      bufs := ctorState.bufs }
    (7/10) (CvResult.error 1) 161 90
    ⟨CvResult.success, CvResult.success, CvResult.success, CvResult.success,
     CvResult.success, CvResult.success, CvResult.success, CvResult.success⟩
  refine ⟨h.1, h.2.1 (Or.inr (Or.inr (Or.inl (by simp)))), ?_⟩
  exact h2.2.2.2.2.2 ⟨2, (161, 90), (322, 180), 2⟩ CvResult.success
    (CvResult.error 3) sizeAliased_2_161 (Or.inr rfl) (by decide) (by decide)
lemma set_strengthM_eq (st : SRState) (x : ℚ) (res : CvResult) :
    set_strengthM st x res =
      ({ st with strength := if x ≥ 1/2 then 1 else 0,
                 dirty := if !(is_close (if x ≥ 1/2 then (1 : ℚ) else 0)
                     st.strength (1/100)) then true else st.dirty }, none) := by
  cases res <;> rfl

lemma is_close_self (a t : ℚ) (ht : 0 ≤ t) : is_close a a t = true := by
  simp [is_close, absQ, ht]

/-- C6: `set_scale(x)` stores the first supported factor of minimal distance
to `clamp(x, 1, 4)` — the supported list splits around the stored factor,
every earlier entry strictly farther, every entry at least as far — marks the
effect dirty exactly when the stored factor is not within `0.01` of the
previous one, touches no buffer, and on the distance tie `x = 2.5` stores
`2` (the earlier-listed of the two candidates `2` and `3`). -/
theorem claim_C6_set_scale (st : SRState) (x : ℚ) :
    (set_scaleM st x).neg.scale ∈ supported_scale_factors
    ∧ (∀ y ∈ supported_scale_factors,
        absQ ((set_scaleM st x).neg.scale - clampQ x 1 4)
          ≤ absQ (y - clampQ x 1 4))
    ∧ (∃ pre post,
        supported_scale_factors = pre ++ (set_scaleM st x).neg.scale :: post
        ∧ ∀ y ∈ pre,
            absQ ((set_scaleM st x).neg.scale - clampQ x 1 4)
              < absQ (y - clampQ x 1 4))
    ∧ (set_scaleM st x).dirty
        = (st.dirty || !(is_close st.neg.scale (set_scaleM st x).neg.scale (1/100)))
    ∧ (set_scaleM st x).bufs = st.bufs
    ∧ (set_scaleM st x).strength = st.strength
    ∧ (set_scaleM st x).neg.cache_input = st.neg.cache_input
    ∧ (set_scaleM st x).neg.cache_output = st.neg.cache_output
    ∧ (x = 5/2 → (set_scaleM st x).neg.scale = 2) := by
  obtain ⟨hc1, hc4⟩ := clampQ_bounds x
  obtain ⟨pre, post, hdec, hpre, hpost⟩ := find_closest_decomp (clampQ x 1 4) hc1 hc4
  have hscale : (set_scaleM st x).neg.scale
      = find_closest_scale_factor (clampQ x 1 4) := rfl
  refine ⟨?_, ?_, ⟨pre, post, ?_, ?_⟩, ?_, rfl, rfl, rfl, rfl, ?_⟩
  · rw [hscale, hdec]; simp
  · intro y hy
    rw [hscale]
    rw [hdec] at hy
    rcases List.mem_append.1 hy with h | h
    · exact le_of_lt (hpre y h)
    · rcases List.mem_cons.1 h with rfl | h'
      · exact le_refl _
      · exact hpost y h'
  · rw [hscale]; exact hdec
  · rw [hscale]; exact hpre
  · rw [hscale]
    have hclean : (set_scaleM st x).dirty
        = (if (!is_close st.neg.scale (find_closest_scale_factor (clampQ x 1 4))
              (1/100)) = true then true else st.dirty) := rfl
    rw [hclean]
    cases h : is_close st.neg.scale (find_closest_scale_factor (clampQ x 1 4)) (1/100) <;>
      cases hd : st.dirty <;> decide
  · intro hx
    subst hx
    rw [hscale, show clampQ (5/2) 1 4 = 5/2 from by norm_num [clampQ]]
    exact fc_52

/-- C6 witness: `set_scale(2.5)` on a freshly constructed object stores `2`
and leaves every buffer untouched. -/
theorem claim_C6_set_scale_witness :
    (set_scaleM ctorState (5/2)).neg.scale = 2
    ∧ (set_scaleM ctorState (5/2)).bufs = ctorState.bufs
    ∧ (set_scaleM ctorState (5/2)).neg.scale ∈ supported_scale_factors := by
  have h := claim_C6_set_scale ctorState (5/2)
  exact ⟨h.2.2.2.2.2.2.2.2 rfl, h.2.2.2.2.1, h.1⟩

/-- C7: `set_strength(x)` stores the binarized value (`1` when `x ≥ 0.5`,
else `0`), marks dirty exactly when the binarized value is not within `0.01`
of the previously stored one, and a second identical call changes neither the
stored value nor the dirty flag; for `x = 0.3` the stored value (returned by
`strength()`) is `0`. -/
theorem claim_C7_set_strength (st : SRState) (x : ℚ) (res res2 : CvResult) :
    (set_strengthM st x res).1.strength = (if x ≥ 1/2 then 1 else 0)
    ∧ (set_strengthM st x res).1.dirty
        = (st.dirty
           || !(is_close (set_strengthM st x res).1.strength st.strength (1/100)))
    ∧ (set_strengthM (set_strengthM st x res).1 x res2).1.dirty
        = (set_strengthM st x res).1.dirty
    ∧ (set_strengthM (set_strengthM st x res).1 x res2).1.strength
        = (set_strengthM st x res).1.strength
    ∧ strengthM (set_strengthM (set_strengthM st x res).1 x res2).1
        = (set_strengthM st x res).1.strength
    ∧ (x = 3/10 → strengthM (set_strengthM (set_strengthM st x res).1 x res2).1 = 0) := by
  have hself := is_close_self (if x ≥ 1/2 then (1 : ℚ) else 0) (1/100) (by norm_num)
  refine ⟨?_, ?_, ?_, ?_, ?_, ?_⟩
  · rw [set_strengthM_eq]
  · rw [set_strengthM_eq]
    show (if (!is_close (if x ≥ 1/2 then (1 : ℚ) else 0) st.strength (1/100)) = true
          then true else st.dirty)
        = (st.dirty || !(is_close (if x ≥ 1/2 then (1 : ℚ) else 0) st.strength (1/100)))
    cases h : is_close (if x ≥ 1/2 then (1 : ℚ) else 0) st.strength (1/100) <;>
      cases hd : st.dirty <;> decide
  · rw [set_strengthM_eq, set_strengthM_eq]
    show (if (!is_close (if x ≥ 1/2 then (1 : ℚ) else 0)
            (if x ≥ 1/2 then (1 : ℚ) else 0) (1/100)) = true
          then true
          else (if (!is_close (if x ≥ 1/2 then (1 : ℚ) else 0) st.strength (1/100)) = true
                then true else st.dirty))
        = (if (!is_close (if x ≥ 1/2 then (1 : ℚ) else 0) st.strength (1/100)) = true
           then true else st.dirty)
    rw [hself]
    simp
  · rw [set_strengthM_eq, set_strengthM_eq]
  · rw [set_strengthM_eq, set_strengthM_eq]
    rfl
  · intro hx
    subst hx
    rw [set_strengthM_eq, set_strengthM_eq]
    show (if ((3 : ℚ)/10 ≥ 1/2) then (1 : ℚ) else 0) = 0
    norm_num

/-- C7 witness: `set_strength(0.3)` twice on a freshly constructed object:
the second call keeps the dirty flag and the stored strength is `0`. -/
theorem claim_C7_set_strength_witness :
    (set_strengthM (set_strengthM ctorState (3/10) CvResult.success).1 (3/10)
        CvResult.success).1.dirty
      = (set_strengthM ctorState (3/10) CvResult.success).1.dirty
    ∧ strengthM (set_strengthM (set_strengthM ctorState (3/10)
        CvResult.success).1 (3/10) CvResult.success).1 = 0 := by
  have h := claim_C7_set_strength ctorState (3/10) CvResult.success CvResult.success
  exact ⟨h.2.2.1, h.2.2.2.2.2 rfl⟩

/-- C8: the scratch buffer `_tmp` is created only when absent — at the first
`resize`, sized to the output negotiated at that moment — and no later
`resize` or `process` ever changes it; every other buffer ends an error-free
`resize` matching its size class (input-sized: `_input`, `_convert_to_fp32`,
`_source`; output-sized: `_destination`, `_convert_to_u8`, `_output`). -/
theorem claim_C8_buffers (st : SRState) (w h : ℕ) (rIn rOut : CvResult)
    (r : ProcResults) :
    (∀ d, st.bufs.tmp = some d →
        (resizeM st w h rIn rOut).1.bufs.tmp = some d
        ∧ (processM st w h r).1.bufs.tmp = some d)
    ∧ (∀ st', resizeM st w h rIn rOut = (st', none) →
        (st.bufs.tmp = none → st'.bufs.tmp = some st'.neg.cache_output)
        ∧ st'.bufs.input = some st'.neg.cache_input
        ∧ st'.bufs.convert_to_fp32 = some st'.neg.cache_input
        ∧ st'.bufs.source = some st'.neg.cache_input
        ∧ st'.bufs.destination = some st'.neg.cache_output
        ∧ st'.bufs.convert_to_u8 = some st'.neg.cache_output
        ∧ st'.bufs.output = some st'.neg.cache_output) := by
  constructor
  · intro d hd
    refine ⟨resizeM_tmp_some st w h rIn rOut d hd, ?_⟩
    rw [processM_tmp]
    exact resizeM_tmp_some st w h r.setInput r.setOutput d hd
  · intro st' hok
    obtain ⟨htmp, h2, h3, h4, h5, h6, h7⟩ := resizeM_ok_bufs st w h rIn rOut st' hok
    refine ⟨?_, h2, h3, h4, h5, h6, h7⟩
    intro hnone
    rw [htmp, hnone]
    rfl

/-- C8 witness: on a freshly constructed object (scratch buffer `240×135`),
a `resize` keeps the scratch buffer. -/
theorem claim_C8_buffers_witness :
    (resizeM ctorState 160 90 CvResult.success CvResult.success).1.bufs.tmp
      = some (240, 135) := by
  exact ((claim_C8_buffers ctorState 160 90 CvResult.success CvResult.success
    ⟨CvResult.success, CvResult.success, CvResult.success, CvResult.success,
     CvResult.success, CvResult.success, CvResult.success,
     CvResult.success⟩).1 (240, 135) rfl).1

/-- C9: `load` clears the dirty flag only on success: a failing
`effect::load()` raises the error with the state (and hence the dirty flag)
untouched, and a `process` call on a still-dirty pipeline with a failing
reload aborts with that error instead of running with a stale engine
configuration. -/
theorem claim_C9_load_dirty (st : SRState) (res : CvResult)
    (hres : res ≠ CvResult.success) :
    loadM st res = (st, some (Err.engine "Load failed."))
    ∧ loadM st CvResult.success = ({ st with dirty := false }, none)
    ∧ (∀ w h r st1, r.load = res →
        resizeM st w h r.setInput r.setOutput = (st1, none) →
        st1.dirty = true →
        (processM st w h r).2 = some (Err.engine "Load failed.")) := by
  refine ⟨by simp [loadM, hres], by simp [loadM], ?_⟩
  intro w h r st1 hload hresz hd
  apply processM_load_fail st w h r st1 hresz hd
  rw [hload]
  exact hres

/-- C9 witness: a constructed-but-dirty object whose reload fails keeps
failing `process` with the load error. -/
theorem claim_C9_load_dirty_witness :
    loadM { ctorState with dirty := true } (CvResult.error 2)
      = ({ ctorState with dirty := true }, some (Err.engine "Load failed."))
    ∧ (processM { ctorState with dirty := true } 160 90
        ⟨CvResult.success, CvResult.success, CvResult.error 2, CvResult.success,
         CvResult.success, CvResult.success, CvResult.success,
         CvResult.success⟩).2 = some (Err.engine "Load failed.") := by
  have h := claim_C9_load_dirty { ctorState with dirty := true }
    (CvResult.error 2) (by simp)
  exact ⟨h.1, h.2.2 160 90 _ { ctorState with dirty := true } rfl
    resizeM_dirty_160 rfl⟩

end SuperRes
